import Mathlib

/-!
# Matter bridge devices: `DeviceHumiditySensor` and `MatterTemperature`

A shallow embedding of

* `libraries/Matter/src/devices/DeviceHumiditySensor.cpp`
* `libraries/Matter/src/MatterTemperature.cpp`

Machine integers are natural numbers (`uint16_t`, `uint32_t`) or integers
(`int`, `int16_t`); the methods below perform no arithmetic on them, only
comparisons and copies, so no wrap-around occurs inside the embedded code.  The one
narrowing step, the conversion of a scaled Celsius value to `int16_t`, belongs to
the floating-point unit of the target, which is a parameter (`FloatOps`); finite
floating-point values are the rational numbers they denote.  Calls into
collaborators that are not part of these two files (the reporting engine, the
allocator, the endpoint table, the stack lock, the base class `Device`) are
recorded, in program order, in a list of `Effect`s returned by every method.
`ChipLogProgress` only prints and is left out.
-/

namespace Matter

/-! ## Declarations the two files use but do not contain -/

/-- Numeric identifiers and enum constants that the sources refer to by name
(cluster ids, attribute ids, the change-mask bit of the humidity device).
Their values live in headers outside the two embedded files, so they are a
parameter of the embedding. -/
structure Decls where
  BridgedDeviceBasicInformation_Id : Nat
  RelativeHumidityMeasurement_Id : Nat
  MeasuredValue_Id : Nat
  MinMeasuredValue_Id : Nat
  MaxMeasuredValue_Id : Nat
  FeatureMap_Id : Nat
  ClusterRevision_Id : Nat
  kChanged_MeasurementValue : Nat
  deriving DecidableEq, Repr

/-- The five attribute ids of the humidity cluster are pairwise different and
the humidity cluster is not the bridged-device basic-information cluster. -/
def Decls.Distinct (c : Decls) : Prop :=
  c.RelativeHumidityMeasurement_Id ≠ c.BridgedDeviceBasicInformation_Id ∧
  [c.MeasuredValue_Id, c.MinMeasuredValue_Id, c.MaxMeasuredValue_Id,
    c.FeatureMap_Id, c.ClusterRevision_Id].Nodup

instance (c : Decls) : Decidable c.Distinct := by
  unfold Decls.Distinct; infer_instance

/-- Values for the names of `Decls`: the cluster and attribute ids of the Matter
data model (clusters `0x0039` and `0x0405`, global attributes `0xFFFC` and `0xFFFD`)
and a single bit for the change mask. -/
def matterDecls : Decls where
  BridgedDeviceBasicInformation_Id := 0x0039
  RelativeHumidityMeasurement_Id := 0x0405
  MeasuredValue_Id := 0x0000
  MinMeasuredValue_Id := 0x0001
  MaxMeasuredValue_Id := 0x0002
  FeatureMap_Id := 0xFFFC
  ClusterRevision_Id := 0xFFFD
  kChanged_MeasurementValue := 0x08

/-- Return status of an attribute read. -/
inductive EmberAfStatus where
  | EMBER_ZCL_STATUS_SUCCESS
  | EMBER_ZCL_STATUS_FAILURE
  deriving DecidableEq, Repr

/-- A heap address. -/
abbrev Ptr := Nat

/-- Calls that leave the embedded files, in the order the code makes them. -/
inductive Effect where
  /-- `ScheduleMatterReportingCallback(endpoint, cluster, attribute)` -/
  | ScheduleMatterReportingCallback (endpointId clusterId attributeId : Nat)
  /-- `Device::HandleReadBridgedDeviceBasicAttribute(cluster, attribute, buffer, len)` -/
  | HandleReadBridgedDeviceBasicAttribute (clusterId attributeId maxReadLength : Nat)
  /-- `new (std::nothrow) DeviceTempSensor(name, min, max, value)` and its result -/
  | new_DeviceTempSensor (name : String) (min max value : Int) (result : Option Ptr)
  /-- `Device::SetReachable(reachable)` on the device at `dev` -/
  | SetReachable (dev : Ptr) (reachable : Bool)
  /-- `Device::SetProductName(name)` on the device at `dev` -/
  | SetProductName (dev : Ptr) (name : String)
  /-- `malloc(size)` and its result -/
  | malloc (size : Nat) (result : Option Ptr)
  /-- writes of `cluster`, `clusterCount`, `endpointSize` into the descriptor at `ep` -/
  | store_endpoint (ep : Ptr) (clusterCount endpointSize : Nat)
  /-- `free(p)` -/
  | free (p : Option Ptr)
  /-- `delete(dev)` -/
  | delete (dev : Option Ptr)
  /-- `AddDeviceEndpoint(dev, ep, deviceTypes, Span<DataVersion>(storage, spanLength), parent)` -/
  | AddDeviceEndpoint (dev ep storage : Ptr) (spanLength parentEndpointId : Nat) (result : Int)
  /-- `RemoveDeviceEndpoint(dev)` -/
  | RemoveDeviceEndpoint (dev : Option Ptr)
  /-- `PlatformMgr().LockChipStack()` -/
  | LockChipStack
  /-- `PlatformMgr().UnlockChipStack()` -/
  | UnlockChipStack
  /-- `DeviceTempSensor::SetMeasuredValue(value)` on the device at `dev` -/
  | SetMeasuredValue (dev : Option Ptr) (value : Int)
  deriving DecidableEq, Repr

/-! ## Memory -/

/-- The caller's buffer: the byte at each offset from the pointer passed in. -/
abbrev Buffer := Nat → Nat

/-- Byte order of the target's object representation. -/
inductive Endian where
  | little
  | big
  deriving DecidableEq, Repr

/-- The object representation of an unsigned integer of `width` bytes holding `v`:
its bytes in memory order. -/
def objectBytes (e : Endian) (width v : Nat) : List Nat :=
  match e with
  | .little => (List.range width).map fun i => v / 256 ^ i % 256
  | .big => ((List.range width).map fun i => v / 256 ^ i % 256).reverse

/-- `memcpy(dest, src, n)`: the first `n` bytes of `dest` become those of `src`. -/
def memcpy (dest : Buffer) (src : List Nat) (n : Nat) : Buffer :=
  fun i => if i < n then src.getD i 0 else dest i

/-- Value of a little-endian byte string. -/
def ofBytesLE : List Nat → Nat
  | [] => 0
  | b :: bs => b + 256 * ofBytesLE bs

/-- The unsigned integer of `width` bytes found at the start of a buffer, read in
the byte order `e`. -/
def readObject (e : Endian) (width : Nat) (buffer : Buffer) : Nat :=
  match e with
  | .little => ofBytesLE ((List.range width).map buffer)
  | .big => ofBytesLE ((List.range width).map buffer).reverse

/-! ## `DeviceHumiditySensor` -/

/-- Object state of a `DeviceHumiditySensor`: the fields of the base class
`Device` that the file reads (`device_name`, `reachable`, `endpoint_id`) and the
members of the class itself. -/
structure DeviceHumiditySensor where
  device_name : String
  reachable : Bool
  endpoint_id : Nat
  min_value : Nat
  max_value : Nat
  measured_value : Nat
  humidity_sensor_cluster_feature_map : Nat
  humidity_sensor_cluster_revision : Nat
  deriving DecidableEq, Repr

namespace DeviceHumiditySensor

/-- `DeviceHumiditySensor::DeviceHumiditySensor(device_name, min, max, measured_value)`:
the member initialisers store the three arguments as given.  `base` is the object
as the base-class constructor `Device(device_name)` and the in-class initialisers
leave it. -/
def ctor (base : DeviceHumiditySensor) (device_name : String) (min max measured_value : Nat) :
    DeviceHumiditySensor :=
  { base with
    device_name := device_name
    min_value := min
    max_value := max
    measured_value := measured_value }

/-- `DeviceHumiditySensor::GetMeasuredValue` -/
def GetMeasuredValue (self : DeviceHumiditySensor) : Nat :=
  self.measured_value

/-- `DeviceHumiditySensor::GetHumiditySensorClusterFeatureMap` -/
def GetHumiditySensorClusterFeatureMap (self : DeviceHumiditySensor) : Nat :=
  self.humidity_sensor_cluster_feature_map

/-- `DeviceHumiditySensor::GetHumiditySensorClusterRevision` -/
def GetHumiditySensorClusterRevision (self : DeviceHumiditySensor) : Nat :=
  self.humidity_sensor_cluster_revision

/-- `DeviceHumiditySensor::HandleHumiditySensorDeviceStatusChanged`: the calls it makes. -/
def HandleHumiditySensorDeviceStatusChanged (c : Decls) (self : DeviceHumiditySensor)
    (itemChangedMask : Nat) : List Effect :=
  if itemChangedMask &&& c.kChanged_MeasurementValue ≠ 0 then
    [Effect.ScheduleMatterReportingCallback self.endpoint_id
      c.RelativeHumidityMeasurement_Id c.MeasuredValue_Id]
  else
    []

/-- `DeviceHumiditySensor::SetMeasuredValue`: the object afterwards and the calls made. -/
def SetMeasuredValue (c : Decls) (self : DeviceHumiditySensor) (measurement : Nat) :
    DeviceHumiditySensor × List Effect :=
  let measurement :=
    if measurement < self.min_value then self.min_value
    else if measurement > self.max_value then self.max_value
    else measurement
  let changed : Bool := self.measured_value != measurement
  let self1 := { self with measured_value := measurement }
  if changed then
    (self1, self1.HandleHumiditySensorDeviceStatusChanged c c.kChanged_MeasurementValue)
  else
    (self1, [])

/-- Outcome of an attribute read: the status returned, the caller's buffer and the
object afterwards, and the calls made. -/
structure ReadResult where
  status : EmberAfStatus
  buffer : Buffer
  self : DeviceHumiditySensor
  effects : List Effect

/-- `DeviceHumiditySensor::HandleReadEmberAfAttribute`.  `basic` stands for the
base-class method `Device::HandleReadBridgedDeviceBasicAttribute`, which is not
part of the file; the call to it is recorded before its own effects. -/
def HandleReadEmberAfAttribute (c : Decls) (e : Endian)
    (basic : DeviceHumiditySensor → Nat → Nat → Buffer → Nat → ReadResult)
    (self : DeviceHumiditySensor) (clusterId attributeId : Nat) (buffer : Buffer)
    (maxReadLength : Nat) : ReadResult :=
  if !self.reachable then
    ⟨.EMBER_ZCL_STATUS_FAILURE, buffer, self, []⟩
  else if clusterId = c.BridgedDeviceBasicInformation_Id then
    let r := basic self clusterId attributeId buffer maxReadLength
    { r with effects :=
        Effect.HandleReadBridgedDeviceBasicAttribute clusterId attributeId maxReadLength
          :: r.effects }
  else if clusterId ≠ c.RelativeHumidityMeasurement_Id then
    ⟨.EMBER_ZCL_STATUS_FAILURE, buffer, self, []⟩
  else if attributeId = c.MeasuredValue_Id ∧ maxReadLength = 2 then
    let measuredValue := self.GetMeasuredValue
    ⟨.EMBER_ZCL_STATUS_SUCCESS, memcpy buffer (objectBytes e 2 measuredValue) 2, self, []⟩
  else if attributeId = c.MinMeasuredValue_Id ∧ maxReadLength = 2 then
    let minValue := self.min_value
    ⟨.EMBER_ZCL_STATUS_SUCCESS, memcpy buffer (objectBytes e 2 minValue) 2, self, []⟩
  else if attributeId = c.MaxMeasuredValue_Id ∧ maxReadLength = 2 then
    let maxValue := self.max_value
    ⟨.EMBER_ZCL_STATUS_SUCCESS, memcpy buffer (objectBytes e 2 maxValue) 2, self, []⟩
  else if attributeId = c.FeatureMap_Id ∧ maxReadLength = 4 then
    let featureMap := self.GetHumiditySensorClusterFeatureMap
    ⟨.EMBER_ZCL_STATUS_SUCCESS, memcpy buffer (objectBytes e 4 featureMap) 4, self, []⟩
  else if attributeId = c.ClusterRevision_Id ∧ maxReadLength = 2 then
    let clusterRevision := self.GetHumiditySensorClusterRevision
    ⟨.EMBER_ZCL_STATUS_SUCCESS, memcpy buffer (objectBytes e 2 clusterRevision) 2, self, []⟩
  else
    ⟨.EMBER_ZCL_STATUS_FAILURE, buffer, self, []⟩

/-- Every field holds a value of its C type: `uint16_t` for the three values, the
endpoint id and the cluster revision, `uint32_t` for the feature map. -/
def WellTyped (self : DeviceHumiditySensor) : Prop :=
  self.endpoint_id < 2 ^ 16 ∧ self.min_value < 2 ^ 16 ∧ self.max_value < 2 ^ 16 ∧
  self.measured_value < 2 ^ 16 ∧ self.humidity_sensor_cluster_feature_map < 2 ^ 32 ∧
  self.humidity_sensor_cluster_revision < 2 ^ 16

instance (self : DeviceHumiditySensor) : Decidable self.WellTyped := by
  unfold WellTyped; infer_instance

/-- The attribute table of the humidity cluster in the words of the specification:
attribute id, documented width in bytes, and the field the attribute reads. -/
def attributeTable (c : Decls) (self : DeviceHumiditySensor) : List (Nat × Nat × Nat) :=
  [(c.MeasuredValue_Id, 2, self.measured_value),
   (c.MinMeasuredValue_Id, 2, self.min_value),
   (c.MaxMeasuredValue_Id, 2, self.max_value),
   (c.FeatureMap_Id, 4, self.humidity_sensor_cluster_feature_map),
   (c.ClusterRevision_Id, 2, self.humidity_sensor_cluster_revision)]

end DeviceHumiditySensor

/-- The value `SetMeasuredValue` stores for the input `v`: the outcome of the two
comparisons at the head of the method. -/
def DeviceHumiditySensor.storedValue (d : DeviceHumiditySensor) (v : Nat) : Nat :=
  if v < d.min_value then d.min_value else if v > d.max_value then d.max_value else v

/-- A humidity device with range `[0, 10000]` in hundredths of a percent, initial
value `0`, reachable, on endpoint `3`. -/
def humidityExample : DeviceHumiditySensor :=
  DeviceHumiditySensor.ctor
    { device_name := "", reachable := true, endpoint_id := 3, min_value := 0, max_value := 0,
      measured_value := 0, humidity_sensor_cluster_feature_map := 0,
      humidity_sensor_cluster_revision := 3 }
    "Humidity sensor" 0 10000 0

/-- A basic-information handler that answers every read with success and an
untouched buffer. -/
def basicExample (self : DeviceHumiditySensor) (_clusterId _attributeId : Nat) (buffer : Buffer)
    (_maxReadLength : Nat) : DeviceHumiditySensor.ReadResult :=
  ⟨.EMBER_ZCL_STATUS_SUCCESS, buffer, self, []⟩

/-- The clamp of `v` into `[lo, hi]` in the words of the specification. -/
def clamp (v lo hi : Nat) : Nat :=
  max lo (min v hi)

/-! ## `MatterTemperature` -/

/-- `tempMeasurementEndpointClusters`: the cluster list of the endpoint, each entry
the cluster and its attribute list. -/
def tempMeasurementEndpointClusters : List (String × String) :=
  [("TemperatureMeasurement::Id", "tempSensorAttrs"),
   ("Descriptor::Id", "descriptorAttrs"),
   ("BridgedDeviceBasicInformation::Id", "bridgedDeviceBasicAttrs")]

/-- `ArraySize(a)`: the number of elements of an array. -/
def ArraySize {α : Type} (a : List α) : Nat :=
  a.length

/-- Object sizes of the target, from headers outside the file. -/
structure Sizes where
  sizeof_EmberAfEndpointType : Nat
  sizeof_DataVersion : Nat
  deriving DecidableEq, Repr

/-- What the allocator and the endpoint table answer during one call of `begin`. -/
structure Answers where
  new_DeviceTempSensor : Option Ptr
  malloc_endpoint : Option Ptr
  malloc_dataversion : Option Ptr
  AddDeviceEndpoint : Int
  deriving DecidableEq, Repr

/-- Object state of a `MatterTemperature`: the pointer `base_matter_device` of the
base class and the four members of the class. -/
structure MatterTemperature where
  base_matter_device : Option Ptr
  sensor_device : Option Ptr
  device_endpoint : Option Ptr
  endpoint_dataversion_storage : Option Ptr
  initialized : Bool
  deriving DecidableEq, Repr

namespace MatterTemperature

/-- `MatterTemperature::MatterTemperature()`; `base_matter_device` is as the
base-class constructor leaves it. -/
def ctor (base_matter_device : Option Ptr) : MatterTemperature :=
  { base_matter_device := base_matter_device
    sensor_device := none
    device_endpoint := none
    endpoint_dataversion_storage := none
    initialized := false }

/-- `MatterTemperature::begin`: the value returned, the object afterwards and the
calls made. -/
def begin (sz : Sizes) (ans : Answers) (self : MatterTemperature) :
    Bool × MatterTemperature × List Effect :=
  if self.initialized then
    (false, self, [])
  else
    -- Create new device
    let t0 := [Effect.new_DeviceTempSensor "Temperature sensor" (-4000) 10000 0
      ans.new_DeviceTempSensor]
    match ans.new_DeviceTempSensor with
    | none => (false, self, t0)
    | some sensor =>
      let t1 := t0 ++ [Effect.SetReachable sensor true,
        Effect.SetProductName sensor "Temperature sensor"]
      -- Set the device instance pointer in the base class
      let self1 := { self with base_matter_device := some sensor }
      -- Create new endpoint
      let t2 := t1 ++ [Effect.malloc sz.sizeof_EmberAfEndpointType ans.malloc_endpoint]
      match ans.malloc_endpoint with
      | none => (false, self1, t2 ++ [Effect.delete (some sensor)])
      | some new_endpoint =>
        let t3 := t2 ++ [Effect.store_endpoint new_endpoint
          (ArraySize tempMeasurementEndpointClusters) 0]
        -- Create data version storage for the endpoint
        let dataversion_size := ArraySize tempMeasurementEndpointClusters * sz.sizeof_DataVersion
        let t4 := t3 ++ [Effect.malloc dataversion_size ans.malloc_dataversion]
        match ans.malloc_dataversion with
        | none =>
          (false, self1, t4 ++ [Effect.delete (some sensor), Effect.free (some new_endpoint)])
        | some new_sensor_data_version =>
          -- Add new endpoint
          let result := ans.AddDeviceEndpoint
          let t5 := t4 ++ [Effect.AddDeviceEndpoint sensor new_endpoint new_sensor_data_version
            dataversion_size 1 result]
          if result < 0 then
            (false, self1, t5 ++ [Effect.delete (some sensor), Effect.free (some new_endpoint),
              Effect.free (some new_sensor_data_version)])
          else
            (true,
             { self1 with
               sensor_device := some sensor
               device_endpoint := some new_endpoint
               endpoint_dataversion_storage := some new_sensor_data_version
               initialized := true },
             t5)

/-- `MatterTemperature::end`: the object afterwards and the calls made. -/
def end_ (self : MatterTemperature) : MatterTemperature × List Effect :=
  if !self.initialized then
    (self, [])
  else
    ({ self with initialized := false },
     [Effect.RemoveDeviceEndpoint self.sensor_device,
      Effect.free self.device_endpoint,
      Effect.free self.endpoint_dataversion_storage,
      Effect.delete self.sensor_device])

end MatterTemperature

/-! ## Floating point -/

/-- Truncation toward zero of a rational number: the integer part that a C++
conversion from a floating-point type to an integer type keeps. -/
def truncate (x : ℚ) : Int :=
  Int.tdiv x.num x.den

/-- Floating-point arithmetic of the target.  A finite `float`, `double` or
`long double` is represented by the rational number it denotes.  The two
conversions stand for what `static_cast<int16_t>` computes on the target; C++
fixes their result only for a truncated value inside the range of `int16_t`. -/
structure FloatOps where
  /-- `float * float` -/
  mul_float : ℚ → ℚ → ℚ
  /-- `double * long double`, computed in `long double` -/
  mul_long_double : ℚ → ℚ → ℚ
  /-- `float / float` -/
  div_float : ℚ → ℚ → ℚ
  /-- `static_cast<int16_t>(float)` -/
  float_to_int16 : ℚ → Int
  /-- `static_cast<int16_t>(long double)` -/
  long_double_to_int16 : ℚ → Int

/-- What C++ and IEEE 754 guarantee of the target's arithmetic: a conversion to
`int16_t` truncates toward zero when the truncated value is representable, and a
product or quotient of integers below `2 ^ 24` in magnitude whose exact value is
again such an integer is computed exactly. -/
def FloatOps.Conforming (F : FloatOps) : Prop :=
  (∀ x : ℚ, -32768 ≤ truncate x → truncate x ≤ 32767 → F.float_to_int16 x = truncate x) ∧
  (∀ x : ℚ, -32768 ≤ truncate x → truncate x ≤ 32767 →
    F.long_double_to_int16 x = truncate x) ∧
  (∀ a b : Int, |a| ≤ 2 ^ 24 → |b| ≤ 2 ^ 24 → |a * b| ≤ 2 ^ 24 →
    F.mul_float a b = ((a * b : Int) : ℚ)) ∧
  (∀ a b : Int, |a| ≤ 2 ^ 24 → |b| ≤ 2 ^ 24 → |a * b| ≤ 2 ^ 24 →
    F.mul_long_double a b = ((a * b : Int) : ℚ)) ∧
  (∀ q b : Int, |q| ≤ 2 ^ 24 → |b| ≤ 2 ^ 24 → |q * b| ≤ 2 ^ 24 → b ≠ 0 →
    F.div_float ((q * b : Int) : ℚ) b = (q : ℚ))

/-- Reduction of an integer to the range of `int16_t` by dropping all but its low
16 bits. -/
def wrap16 (n : Int) : Int :=
  (n + 32768) % 65536 - 32768

/-- Saturation of an integer to the range of `int32_t`. -/
def saturate32 (n : Int) : Int :=
  max (-2147483648) (min n 2147483647)

/-- A target that converts as a Cortex-M does (saturating conversion to 32 bits,
of which the low 16 are kept) and whose products and quotients are exact.  Real
arithmetic rounds; it agrees with this one wherever the exact result is
representable, as for every value this development evaluates it at. -/
def targetExample : FloatOps where
  mul_float := fun a b => a * b
  mul_long_double := fun a b => a * b
  div_float := fun a b => a / b
  float_to_int16 := fun x => wrap16 (saturate32 (truncate x))
  long_double_to_int16 := fun x => wrap16 (saturate32 (truncate x))

/-! ## `DeviceTempSensor` -/

/-- Cluster and attribute id of the temperature measurement, from headers outside
the file. -/
structure TemperatureDecls where
  TemperatureMeasurement_Id : Nat
  MeasuredValue_Id : Nat
  deriving DecidableEq, Repr

/-- Values for the names of `TemperatureDecls` in the Matter data model. -/
def matterTemperatureDecls : TemperatureDecls :=
  { TemperatureMeasurement_Id := 0x0402, MeasuredValue_Id := 0x0000 }

/-- Modelled from the spec: the device class `DeviceTempSensor`, whose
implementation is not among the sources.  A device instance has its endpoint id,
its bounds `min_value`, `max_value` and its current value (`int16_t` in the raw
encoding of 1/100 degree Celsius). -/
structure DeviceTempSensor where
  endpoint_id : Nat
  min_value : Int
  max_value : Int
  measured_value : Int
  deriving DecidableEq, Repr

namespace DeviceTempSensor

/-- Modelled from the spec: the constructor `DeviceTempSensor(name, min, max, value)`,
not among the sources, as it leaves a new device instance. -/
def ctor (endpoint_id : Nat) (min max measured_value : Int) : DeviceTempSensor :=
  { endpoint_id := endpoint_id, min_value := min, max_value := max,
    measured_value := measured_value }

/-- Modelled from the spec: `DeviceTempSensor::GetMeasuredValue`, not among the
sources: "`get()` returns the current clamped value with no side effects". -/
def GetMeasuredValue (self : DeviceTempSensor) : Int :=
  self.measured_value

/-- Modelled from the spec: `DeviceTempSensor::SetMeasuredValue`, not among the
sources: "`set(raw_value)` clamps `raw_value` into `[min_value, max_value]`, compares
to the prior stored value, stores the clamped value", and on a change one report
identified by (endpoint id, cluster id, attribute id) is enqueued. -/
def SetMeasuredValue (t : TemperatureDecls) (self : DeviceTempSensor) (measurement : Int) :
    DeviceTempSensor × List Effect :=
  let clamped := max self.min_value (min measurement self.max_value)
  let changed : Bool := self.measured_value != clamped
  ({ self with measured_value := clamped },
   if changed then
     [Effect.ScheduleMatterReportingCallback self.endpoint_id t.TemperatureMeasurement_Id
       t.MeasuredValue_Id]
   else [])

end DeviceTempSensor

/-! ## `MatterTemperature`: setters and getters -/

namespace MatterTemperature

/-- `MatterTemperature::set_measured_value_raw`.  `sensor` is the object that
`sensor_device` points to; the method returns the `MatterTemperature` object, that
object and the calls made. -/
def set_measured_value_raw (t : TemperatureDecls) (self : MatterTemperature)
    (sensor : DeviceTempSensor) (value : Int) :
    MatterTemperature × DeviceTempSensor × List Effect :=
  if !self.initialized then
    (self, sensor, [])
  else
    let r := sensor.SetMeasuredValue t value
    (self, r.1,
     [Effect.LockChipStack, Effect.SetMeasuredValue self.sensor_device value] ++ r.2 ++
       [Effect.UnlockChipStack])

/-- `MatterTemperature::set_measured_value_celsius(float)` -/
def set_measured_value_celsius_float (F : FloatOps) (t : TemperatureDecls)
    (self : MatterTemperature) (sensor : DeviceTempSensor) (value : ℚ) :
    MatterTemperature × DeviceTempSensor × List Effect :=
  let out_value := F.float_to_int16 (F.mul_float value 100)
  self.set_measured_value_raw t sensor out_value

/-- `MatterTemperature::set_measured_value_celsius(double)` -/
def set_measured_value_celsius_double (F : FloatOps) (t : TemperatureDecls)
    (self : MatterTemperature) (sensor : DeviceTempSensor) (value : ℚ) :
    MatterTemperature × DeviceTempSensor × List Effect :=
  let out_value := F.long_double_to_int16 (F.mul_long_double value 100)
  self.set_measured_value_raw t sensor out_value

/-- `MatterTemperature::get_measured_value_raw` -/
def get_measured_value_raw (_self : MatterTemperature) (sensor : DeviceTempSensor) : Int :=
  sensor.GetMeasuredValue

/-- `MatterTemperature::get_measured_value_celsius` -/
def get_measured_value_celsius (F : FloatOps) (self : MatterTemperature)
    (sensor : DeviceTempSensor) : ℚ :=
  F.div_float (self.get_measured_value_raw sensor) 100

/-- `MatterTemperature::operator=(int16_t)` -/
def assign_int16 (t : TemperatureDecls) (self : MatterTemperature) (sensor : DeviceTempSensor)
    (value : Int) : MatterTemperature × DeviceTempSensor × List Effect :=
  self.set_measured_value_raw t sensor value

/-- `MatterTemperature::operator=(float)` -/
def assign_float (F : FloatOps) (t : TemperatureDecls) (self : MatterTemperature)
    (sensor : DeviceTempSensor) (value : ℚ) :
    MatterTemperature × DeviceTempSensor × List Effect :=
  self.set_measured_value_celsius_float F t sensor value

/-- `MatterTemperature::operator=(double)` -/
def assign_double (F : FloatOps) (t : TemperatureDecls) (self : MatterTemperature)
    (sensor : DeviceTempSensor) (value : ℚ) :
    MatterTemperature × DeviceTempSensor × List Effect :=
  self.set_measured_value_celsius_double F t sensor value

end MatterTemperature

/-! ## The stack lock -/

/-- The calls that change a device instance's value, reachability or name. -/
def Effect.isMutation : Effect → Bool
  | Effect.SetMeasuredValue _ _ => true
  | Effect.SetReachable _ _ => true
  | Effect.SetProductName _ _ => true
  | _ => false

/-- Where a trace stands with respect to the stack lock. -/
inductive LockPhase where
  /-- the lock is not held -/
  | released
  /-- the lock has just been acquired -/
  | acquired
  /-- the lock is held and the mutation has been made -/
  | mutated
  deriving DecidableEq, Repr

/-- The lock discipline in the words of the specification, checked along a trace: a
mutation occurs only as the call right after `LockChipStack`, the lock is released
right after the mutation (only the reports the mutation itself schedules come in
between), it is never acquired while held, and the trace ends with the lock
released. -/
def lockDiscipline : LockPhase → List Effect → Bool
  | LockPhase.released, [] => true
  | _, [] => false
  | LockPhase.released, e :: t =>
    match e with
    | Effect.LockChipStack => lockDiscipline LockPhase.acquired t
    | Effect.UnlockChipStack => false
    | _ => !e.isMutation && lockDiscipline LockPhase.released t
  | LockPhase.acquired, e :: t => e.isMutation && lockDiscipline LockPhase.mutated t
  | LockPhase.mutated, e :: t =>
    match e with
    | Effect.UnlockChipStack => lockDiscipline LockPhase.released t
    | Effect.ScheduleMatterReportingCallback _ _ _ => lockDiscipline LockPhase.mutated t
    | _ => false

/-! ## Reading a trace -/

/-- A heap object owned by a `MatterTemperature`: the device instance obtained from
`new`, or a block obtained from `malloc`. -/
inductive Resource where
  | device (p : Ptr)
  | block (p : Ptr)
  deriving DecidableEq, Repr

/-- The objects a trace allocates, in the order of their allocation: every `new`
and every `malloc` that returned an address. -/
def allocations : List Effect → List Resource
  | [] => []
  | Effect.new_DeviceTempSensor _ _ _ _ (some p) :: t => Resource.device p :: allocations t
  | Effect.malloc _ (some p) :: t => Resource.block p :: allocations t
  | _ :: t => allocations t

/-- The objects a trace releases, in the order of their release: every `delete`
and every `free` of an address. -/
def releases : List Effect → List Resource
  | [] => []
  | Effect.delete (some p) :: t => Resource.device p :: releases t
  | Effect.free (some p) :: t => Resource.block p :: releases t
  | _ :: t => releases t

/-- The endpoint registrations of a trace that the endpoint table accepted. -/
def registrations : List Effect → List Ptr
  | [] => []
  | Effect.AddDeviceEndpoint dev _ _ _ _ result :: t =>
    if result < 0 then registrations t else dev :: registrations t
  | _ :: t => registrations t

/-- The statements of `MatterTemperature::end` after its guard, one entry per source
line, each acting on the object and the trace so far. -/
def MatterTemperature.end_body :
    List (MatterTemperature × List Effect → MatterTemperature × List Effect) :=
  [fun s => (s.1, s.2 ++ [Effect.RemoveDeviceEndpoint s.1.sensor_device]),
   fun s => (s.1, s.2 ++ [Effect.free s.1.device_endpoint]),
   fun s => (s.1, s.2 ++ [Effect.free s.1.endpoint_dataversion_storage]),
   fun s => (s.1, s.2 ++ [Effect.delete s.1.sensor_device]),
   fun s => ({ s.1 with initialized := false }, s.2)]

/-- Runs statements one after the other. -/
def runStatements {σ : Type} (stmts : List (σ → σ)) (s : σ) : σ :=
  stmts.foldl (fun acc f => f acc) s

/-- Object sizes of a 32-bit target. -/
def sizesExample : Sizes :=
  { sizeof_EmberAfEndpointType := 8, sizeof_DataVersion := 4 }

/-- A run of `begin` in which every allocation succeeds and the endpoint table
accepts the endpoint at index `2`. -/
def answersExample : Answers :=
  { new_DeviceTempSensor := some 0x1000
    malloc_endpoint := some 0x2000
    malloc_dataversion := some 0x3000
    AddDeviceEndpoint := 2 }

/-- An Active `MatterTemperature`: a fresh object after a successful `begin`. -/
def temperatureActive : MatterTemperature :=
  (MatterTemperature.begin sizesExample answersExample (MatterTemperature.ctor none)).2.1

/-- The answers of `answersExample`, except that the allocation of the
version-storage block fails. -/
def answersNoStorage : Answers :=
  { answersExample with malloc_dataversion := none }

/-- The answers of `answersExample`, except that the allocation of the endpoint
descriptor fails. -/
def answersNoEndpoint : Answers :=
  { answersExample with malloc_endpoint := none }

/-- The answers of `answersExample`, except that the endpoint table rejects the
endpoint. -/
def answersRejected : Answers :=
  { answersExample with AddDeviceEndpoint := -1 }

/-- The device instance that `begin` creates: range `[-4000, 10000]` in 1/100 degree
Celsius, initial value `0`; the endpoint table put it on endpoint `2`. -/
def sensorExample : DeviceTempSensor :=
  DeviceTempSensor.ctor 2 (-4000) 10000 0

/-! ## Theorems -/

/-- `SetMeasuredValue` in closed form: only `measured_value` is written, and the
report is scheduled exactly when the stored value changes and the mask bit is set. -/
theorem SetMeasuredValue_eq (c : Decls) (d : DeviceHumiditySensor) (v : Nat) :
    d.SetMeasuredValue c v =
      ({ d with measured_value := d.storedValue v },
       if d.measured_value = d.storedValue v then []
       else if c.kChanged_MeasurementValue = 0 then []
       else [Effect.ScheduleMatterReportingCallback d.endpoint_id
         c.RelativeHumidityMeasurement_Id c.MeasuredValue_Id]) := by
  unfold DeviceHumiditySensor.SetMeasuredValue
    DeviceHumiditySensor.HandleHumiditySensorDeviceStatusChanged
    DeviceHumiditySensor.storedValue
  by_cases h : d.measured_value =
      if v < d.min_value then d.min_value else if v > d.max_value then d.max_value else v
  · simp [h]
  · by_cases hk : c.kChanged_MeasurementValue = 0
    · simp [h, hk]
    · simp [h, hk, Nat.and_self]

/-- C1: for every humidity device with `min_value <= max_value` and every input
`v`, after `SetMeasuredValue(v)` the getter returns `clamp(v, min_value, max_value)`:
`min_value` if `v < min_value`, `max_value` if `v > max_value`, and `v` otherwise. -/
theorem C1_set_then_get_is_clamp (c : Decls) (d : DeviceHumiditySensor) (v : Nat)
    (h : d.min_value ≤ d.max_value) :
    (d.SetMeasuredValue c v).1.GetMeasuredValue = clamp v d.min_value d.max_value ∧
    (v < d.min_value → (d.SetMeasuredValue c v).1.GetMeasuredValue = d.min_value) ∧
    (v > d.max_value → (d.SetMeasuredValue c v).1.GetMeasuredValue = d.max_value) ∧
    (d.min_value ≤ v → v ≤ d.max_value → (d.SetMeasuredValue c v).1.GetMeasuredValue = v) := by
  unfold DeviceHumiditySensor.GetMeasuredValue clamp
  rw [SetMeasuredValue_eq]
  simp only [DeviceHumiditySensor.storedValue]
  refine ⟨?_, ?_, ?_, ?_⟩
  · split_ifs <;> omega
  · intro h1; rw [if_pos h1]
  · intro h1; split_ifs <;> omega
  · intro h1 h2; split_ifs <;> omega

/-- C1 at the device `[0, 10000]` and the input `15000`. -/
theorem C1_set_then_get_is_clamp_witness :
    humidityExample.min_value ≤ humidityExample.max_value ∧
    ((humidityExample.SetMeasuredValue matterDecls 15000).1.GetMeasuredValue =
        clamp 15000 humidityExample.min_value humidityExample.max_value ∧
      (15000 < humidityExample.min_value →
        (humidityExample.SetMeasuredValue matterDecls 15000).1.GetMeasuredValue =
          humidityExample.min_value) ∧
      (15000 > humidityExample.max_value →
        (humidityExample.SetMeasuredValue matterDecls 15000).1.GetMeasuredValue =
          humidityExample.max_value) ∧
      (humidityExample.min_value ≤ 15000 → 15000 ≤ humidityExample.max_value →
        (humidityExample.SetMeasuredValue matterDecls 15000).1.GetMeasuredValue = 15000)) :=
  ⟨by decide, C1_set_then_get_is_clamp matterDecls humidityExample 15000 (by decide)⟩

/-- C2 as stated fails: a device constructed with `min = 10 > max = 5` stores `10`
on `SetMeasuredValue(7)`, which exceeds `max_value`. -/
theorem C2_counterexample :
    ¬ ∀ (c : Decls) (base : DeviceHumiditySensor) (name : String) (min max measured_value v : Nat),
      let d := DeviceHumiditySensor.ctor base name min max measured_value
      d.min_value ≤ (d.SetMeasuredValue c v).1.measured_value ∧
        (d.SetMeasuredValue c v).1.measured_value ≤ d.max_value := by
  intro h
  have h1 := (h matterDecls humidityExample "Humidity sensor" 10 5 0 7).2
  revert h1
  decide

/-- C2, amended: for every humidity device with `min_value <= max_value` and every
input `v`, after `SetMeasuredValue(v)` the stored value lies in
`[min_value, max_value]`, and the bounds themselves are as before. -/
theorem C2_set_within_bounds (c : Decls) (d : DeviceHumiditySensor) (v : Nat)
    (h : d.min_value ≤ d.max_value) :
    (d.SetMeasuredValue c v).1.min_value ≤ (d.SetMeasuredValue c v).1.measured_value ∧
    (d.SetMeasuredValue c v).1.measured_value ≤ (d.SetMeasuredValue c v).1.max_value ∧
    (d.SetMeasuredValue c v).1.min_value = d.min_value ∧
    (d.SetMeasuredValue c v).1.max_value = d.max_value := by
  rw [SetMeasuredValue_eq]
  refine ⟨?_, ?_, rfl, rfl⟩
  · show d.min_value ≤ d.storedValue v
    unfold DeviceHumiditySensor.storedValue
    split_ifs <;> omega
  · show d.storedValue v ≤ d.max_value
    unfold DeviceHumiditySensor.storedValue
    split_ifs <;> omega

/-- C2, amended, at the device `[0, 10000]` and the input `15000`. -/
theorem C2_set_within_bounds_witness :
    humidityExample.min_value ≤ humidityExample.max_value ∧
    ((humidityExample.SetMeasuredValue matterDecls 15000).1.min_value ≤
        (humidityExample.SetMeasuredValue matterDecls 15000).1.measured_value ∧
      (humidityExample.SetMeasuredValue matterDecls 15000).1.measured_value ≤
        (humidityExample.SetMeasuredValue matterDecls 15000).1.max_value ∧
      (humidityExample.SetMeasuredValue matterDecls 15000).1.min_value =
        humidityExample.min_value ∧
      (humidityExample.SetMeasuredValue matterDecls 15000).1.max_value =
        humidityExample.max_value) :=
  ⟨by decide, C2_set_within_bounds matterDecls humidityExample 15000 (by decide)⟩

/-- C3 as stated fails: a device constructed with range `[10, 20]` and initial
value `0` changes its value to `10` on `SetMeasuredValue(GetMeasuredValue())` and
schedules a report. -/
theorem C3_counterexample :
    ¬ ∀ (c : Decls) (base : DeviceHumiditySensor) (name : String) (min max measured_value : Nat),
      let d := DeviceHumiditySensor.ctor base name min max measured_value
      (d.SetMeasuredValue c d.GetMeasuredValue).1.measured_value = d.measured_value ∧
        (d.SetMeasuredValue c d.GetMeasuredValue).2 = [] := by
  intro h
  have h1 := (h matterDecls humidityExample "Humidity sensor" 10 20 0).1
  revert h1
  decide

/-- C3, amended: for every humidity device whose stored value lies in
`[min_value, max_value]`, `SetMeasuredValue(GetMeasuredValue())` leaves the whole
object unchanged and schedules no report. -/
theorem C3_set_get_in_range_is_noop (c : Decls) (d : DeviceHumiditySensor)
    (h : d.min_value ≤ d.measured_value ∧ d.measured_value ≤ d.max_value) :
    d.SetMeasuredValue c d.GetMeasuredValue = (d, []) := by
  have hs : d.storedValue d.GetMeasuredValue = d.measured_value := by
    unfold DeviceHumiditySensor.storedValue DeviceHumiditySensor.GetMeasuredValue
    split_ifs <;> omega
  rw [SetMeasuredValue_eq, hs]
  simp

/-- C3, amended, at the device `[0, 10000]` holding `0`. -/
theorem C3_set_get_in_range_is_noop_witness :
    (humidityExample.min_value ≤ humidityExample.measured_value ∧
      humidityExample.measured_value ≤ humidityExample.max_value) ∧
    humidityExample.SetMeasuredValue matterDecls humidityExample.GetMeasuredValue =
      (humidityExample, []) :=
  ⟨by decide, C3_set_get_in_range_is_noop matterDecls humidityExample (by decide)⟩

/-- The pairwise inequalities packed in `Decls.Distinct`. -/
theorem Decls.Distinct.unpack {c : Decls} (h : c.Distinct) :
    c.RelativeHumidityMeasurement_Id ≠ c.BridgedDeviceBasicInformation_Id ∧
    c.MeasuredValue_Id ≠ c.MinMeasuredValue_Id ∧ c.MeasuredValue_Id ≠ c.MaxMeasuredValue_Id ∧
    c.MeasuredValue_Id ≠ c.FeatureMap_Id ∧ c.MeasuredValue_Id ≠ c.ClusterRevision_Id ∧
    c.MinMeasuredValue_Id ≠ c.MaxMeasuredValue_Id ∧ c.MinMeasuredValue_Id ≠ c.FeatureMap_Id ∧
    c.MinMeasuredValue_Id ≠ c.ClusterRevision_Id ∧ c.MaxMeasuredValue_Id ≠ c.FeatureMap_Id ∧
    c.MaxMeasuredValue_Id ≠ c.ClusterRevision_Id ∧ c.FeatureMap_Id ≠ c.ClusterRevision_Id := by
  unfold Decls.Distinct at h
  simp only [List.nodup_cons, List.mem_cons, List.mem_singleton, not_or, List.not_mem_nil,
    List.nodup_nil, not_false_eq_true, and_true] at h
  tauto

/-- C4: for a reachable humidity device, the humidity cluster id and every
attribute of the cluster's table, a read whose `maxReadLength` differs from the
attribute's width returns `EMBER_ZCL_STATUS_FAILURE` and leaves the buffer as it
was; the feature map read with a 2-byte buffer is one such case. -/
theorem C4_length_mismatch_fails (c : Decls) (e : Endian)
    (basic : DeviceHumiditySensor → Nat → Nat → Buffer → Nat → DeviceHumiditySensor.ReadResult)
    (d : DeviceHumiditySensor) (attributeId width field : Nat) (buffer : Buffer)
    (maxReadLength : Nat)
    (hc : c.Distinct) (hr : d.reachable = true)
    (ha : (attributeId, width, field) ∈ d.attributeTable c)
    (hl : maxReadLength ≠ width) :
    (d.HandleReadEmberAfAttribute c e basic c.RelativeHumidityMeasurement_Id attributeId buffer
        maxReadLength).status = EmberAfStatus.EMBER_ZCL_STATUS_FAILURE ∧
    (d.HandleReadEmberAfAttribute c e basic c.RelativeHumidityMeasurement_Id attributeId buffer
        maxReadLength).buffer = buffer ∧
    ((c.FeatureMap_Id, 4, d.humidity_sensor_cluster_feature_map) ∈ d.attributeTable c ∧
      (d.HandleReadEmberAfAttribute c e basic c.RelativeHumidityMeasurement_Id c.FeatureMap_Id
        buffer 2).status = EmberAfStatus.EMBER_ZCL_STATUS_FAILURE) := by
  obtain ⟨h0, h1, h2, h3, h4, h5, h6, h7, h8, h9, h10⟩ := hc.unpack
  have key : ∀ (a w f l : Nat), (a, w, f) ∈ d.attributeTable c → l ≠ w →
      d.HandleReadEmberAfAttribute c e basic c.RelativeHumidityMeasurement_Id a buffer l =
        ⟨EmberAfStatus.EMBER_ZCL_STATUS_FAILURE, buffer, d, []⟩ := by
    intro a w f l ha hl
    simp only [DeviceHumiditySensor.attributeTable, List.mem_cons, List.mem_singleton,
      Prod.mk.injEq, List.not_mem_nil, or_false] at ha
    unfold DeviceHumiditySensor.HandleReadEmberAfAttribute
    rcases ha with ⟨rfl, rfl, -⟩ | ⟨rfl, rfl, -⟩ | ⟨rfl, rfl, -⟩ | ⟨rfl, rfl, -⟩ | ⟨rfl, rfl, -⟩ <;>
      simp [hr, h0, hl, h1, h2, h3, h4, h5, h6, h7, h8, h9, h10, Ne.symm h1, Ne.symm h2,
        Ne.symm h3, Ne.symm h4, Ne.symm h5, Ne.symm h6, Ne.symm h7, Ne.symm h8, Ne.symm h9,
        Ne.symm h10]
  refine ⟨?_, ?_, ?_, ?_⟩
  · rw [key _ _ _ _ ha hl]
  · rw [key _ _ _ _ ha hl]
  · simp [DeviceHumiditySensor.attributeTable]
  · rw [key c.FeatureMap_Id 4 d.humidity_sensor_cluster_feature_map 2
      (by simp [DeviceHumiditySensor.attributeTable]) (by decide)]

/-- C4 at the example device: the feature map (width 4) read with a 2-byte buffer. -/
theorem C4_length_mismatch_fails_witness :
    (matterDecls.Distinct ∧ humidityExample.reachable = true ∧
      (0xFFFC, 4, 0) ∈ humidityExample.attributeTable matterDecls ∧ 2 ≠ 4) ∧
    ((humidityExample.HandleReadEmberAfAttribute matterDecls Endian.little basicExample
        matterDecls.RelativeHumidityMeasurement_Id 0xFFFC (fun _ => 0xAA) 2).status =
        EmberAfStatus.EMBER_ZCL_STATUS_FAILURE ∧
      (humidityExample.HandleReadEmberAfAttribute matterDecls Endian.little basicExample
        matterDecls.RelativeHumidityMeasurement_Id 0xFFFC (fun _ => 0xAA) 2).buffer =
        (fun _ => 0xAA) ∧
      ((matterDecls.FeatureMap_Id, 4, humidityExample.humidity_sensor_cluster_feature_map) ∈
          humidityExample.attributeTable matterDecls ∧
        (humidityExample.HandleReadEmberAfAttribute matterDecls Endian.little basicExample
          matterDecls.RelativeHumidityMeasurement_Id matterDecls.FeatureMap_Id
          (fun _ => 0xAA) 2).status = EmberAfStatus.EMBER_ZCL_STATUS_FAILURE)) :=
  ⟨⟨by decide, by decide, by decide, by decide⟩,
    C4_length_mismatch_fails matterDecls Endian.little basicExample humidityExample 0xFFFC 4 0
      (fun _ => 0xAA) 2 (by decide) (by decide) (by decide) (by decide)⟩

/-- C5: when the device is not reachable, a read returns
`EMBER_ZCL_STATUS_FAILURE` for every cluster id, attribute id and length, whatever the
shared basic-information handler would do; the buffer and the object are as before
and no call is made, so the shared handler is not invoked. -/
theorem C5_unreachable_fails (c : Decls) (e : Endian)
    (basic : DeviceHumiditySensor → Nat → Nat → Buffer → Nat → DeviceHumiditySensor.ReadResult)
    (d : DeviceHumiditySensor) (clusterId attributeId : Nat) (buffer : Buffer)
    (maxReadLength : Nat) (hr : d.reachable = false) :
    (d.HandleReadEmberAfAttribute c e basic clusterId attributeId buffer maxReadLength).status =
      EmberAfStatus.EMBER_ZCL_STATUS_FAILURE ∧
    (d.HandleReadEmberAfAttribute c e basic clusterId attributeId buffer maxReadLength).buffer =
      buffer ∧
    (d.HandleReadEmberAfAttribute c e basic clusterId attributeId buffer maxReadLength).self = d ∧
    (d.HandleReadEmberAfAttribute c e basic clusterId attributeId buffer maxReadLength).effects =
      [] := by
  unfold DeviceHumiditySensor.HandleReadEmberAfAttribute
  simp [hr]

/-- C5 at the example device made unreachable, reading the basic-information cluster. -/
theorem C5_unreachable_fails_witness :
    ({ humidityExample with reachable := false }).reachable = false ∧
    ((({ humidityExample with reachable := false }).HandleReadEmberAfAttribute matterDecls
        Endian.little basicExample matterDecls.BridgedDeviceBasicInformation_Id 5
        (fun _ => 0xAA) 32).status = EmberAfStatus.EMBER_ZCL_STATUS_FAILURE ∧
      (({ humidityExample with reachable := false }).HandleReadEmberAfAttribute matterDecls
        Endian.little basicExample matterDecls.BridgedDeviceBasicInformation_Id 5
        (fun _ => 0xAA) 32).buffer = (fun _ => 0xAA) ∧
      (({ humidityExample with reachable := false }).HandleReadEmberAfAttribute matterDecls
        Endian.little basicExample matterDecls.BridgedDeviceBasicInformation_Id 5
        (fun _ => 0xAA) 32).self = { humidityExample with reachable := false } ∧
      (({ humidityExample with reachable := false }).HandleReadEmberAfAttribute matterDecls
        Endian.little basicExample matterDecls.BridgedDeviceBasicInformation_Id 5
        (fun _ => 0xAA) 32).effects = []) :=
  ⟨rfl, C5_unreachable_fails matterDecls Endian.little basicExample
    { humidityExample with reachable := false } matterDecls.BridgedDeviceBasicInformation_Id 5
    (fun _ => 0xAA) 32 rfl⟩

/-- C6: for a reachable humidity device and a cluster id other than the bridged
basic-information cluster, a read returns `EMBER_ZCL_STATUS_SUCCESS` if and only if the
cluster is the humidity cluster and `(attributeId, maxReadLength)` is one of
`(MeasuredValue, 2)`, `(MinMeasuredValue, 2)`, `(MaxMeasuredValue, 2)`, `(FeatureMap, 4)`,
`(ClusterRevision, 2)`; in every other case it returns `EMBER_ZCL_STATUS_FAILURE`. -/
theorem C6_success_iff (c : Decls) (e : Endian)
    (basic : DeviceHumiditySensor → Nat → Nat → Buffer → Nat → DeviceHumiditySensor.ReadResult)
    (d : DeviceHumiditySensor) (clusterId attributeId : Nat) (buffer : Buffer)
    (maxReadLength : Nat)
    (hr : d.reachable = true) (hb : clusterId ≠ c.BridgedDeviceBasicInformation_Id) :
    ((d.HandleReadEmberAfAttribute c e basic clusterId attributeId buffer maxReadLength).status =
        EmberAfStatus.EMBER_ZCL_STATUS_SUCCESS ↔
      clusterId = c.RelativeHumidityMeasurement_Id ∧
        (attributeId, maxReadLength) ∈
          [(c.MeasuredValue_Id, 2), (c.MinMeasuredValue_Id, 2), (c.MaxMeasuredValue_Id, 2),
           (c.FeatureMap_Id, 4), (c.ClusterRevision_Id, 2)]) ∧
    (¬ (clusterId = c.RelativeHumidityMeasurement_Id ∧
        (attributeId, maxReadLength) ∈
          [(c.MeasuredValue_Id, 2), (c.MinMeasuredValue_Id, 2), (c.MaxMeasuredValue_Id, 2),
           (c.FeatureMap_Id, 4), (c.ClusterRevision_Id, 2)]) →
      (d.HandleReadEmberAfAttribute c e basic clusterId attributeId buffer maxReadLength).status =
        EmberAfStatus.EMBER_ZCL_STATUS_FAILURE) := by
  have hiff : (d.HandleReadEmberAfAttribute c e basic clusterId attributeId buffer
        maxReadLength).status = EmberAfStatus.EMBER_ZCL_STATUS_SUCCESS ↔
      clusterId = c.RelativeHumidityMeasurement_Id ∧
        (attributeId, maxReadLength) ∈
          [(c.MeasuredValue_Id, 2), (c.MinMeasuredValue_Id, 2), (c.MaxMeasuredValue_Id, 2),
           (c.FeatureMap_Id, 4), (c.ClusterRevision_Id, 2)] := by
    unfold DeviceHumiditySensor.HandleReadEmberAfAttribute
    simp only [hr, Bool.not_true, Bool.false_eq_true, if_false, if_neg hb, List.mem_cons,
      Prod.mk.injEq, List.mem_singleton, List.not_mem_nil, or_false]
    split_ifs <;> simp_all
  refine ⟨hiff, fun hn => ?_⟩
  cases hst : (d.HandleReadEmberAfAttribute c e basic clusterId attributeId buffer
      maxReadLength).status
  · exact absurd (hiff.mp hst) hn
  · rfl

/-- C6 at the example device: the measured value of the humidity cluster read with
length 2. -/
theorem C6_success_iff_witness :
    (humidityExample.reachable = true ∧
      matterDecls.RelativeHumidityMeasurement_Id ≠ matterDecls.BridgedDeviceBasicInformation_Id) ∧
    (((humidityExample.HandleReadEmberAfAttribute matterDecls Endian.little basicExample
          matterDecls.RelativeHumidityMeasurement_Id 0 (fun _ => 0xAA) 2).status =
          EmberAfStatus.EMBER_ZCL_STATUS_SUCCESS ↔
        matterDecls.RelativeHumidityMeasurement_Id = matterDecls.RelativeHumidityMeasurement_Id ∧
          (0, 2) ∈
            [(matterDecls.MeasuredValue_Id, 2), (matterDecls.MinMeasuredValue_Id, 2),
             (matterDecls.MaxMeasuredValue_Id, 2), (matterDecls.FeatureMap_Id, 4),
             (matterDecls.ClusterRevision_Id, 2)]) ∧
      (¬ (matterDecls.RelativeHumidityMeasurement_Id =
            matterDecls.RelativeHumidityMeasurement_Id ∧
          (0, 2) ∈
            [(matterDecls.MeasuredValue_Id, 2), (matterDecls.MinMeasuredValue_Id, 2),
             (matterDecls.MaxMeasuredValue_Id, 2), (matterDecls.FeatureMap_Id, 4),
             (matterDecls.ClusterRevision_Id, 2)]) →
        (humidityExample.HandleReadEmberAfAttribute matterDecls Endian.little basicExample
          matterDecls.RelativeHumidityMeasurement_Id 0 (fun _ => 0xAA) 2).status =
          EmberAfStatus.EMBER_ZCL_STATUS_FAILURE)) :=
  ⟨⟨by decide, by decide⟩,
    C6_success_iff matterDecls Endian.little basicExample humidityExample
      matterDecls.RelativeHumidityMeasurement_Id 0 (fun _ => 0xAA) 2 (by decide) (by decide)⟩

/-- `memcpy` leaves the bytes from offset `n` on as they were. -/
theorem memcpy_beyond (dest : Buffer) (src : List Nat) (n i : Nat) (h : n ≤ i) :
    memcpy dest src n i = dest i := by
  unfold memcpy
  rw [if_neg (by omega)]

/-- After copying the two bytes of a 16-bit object, the buffer starts with those
bytes and reads back as the value. -/
theorem memcpy_object_16 (e : Endian) (dest : Buffer) (x : Nat) (hx : x < 2 ^ 16) :
    (List.range 2).map (memcpy dest (objectBytes e 2 x) 2) = objectBytes e 2 x ∧
    readObject e 2 (memcpy dest (objectBytes e 2 x) 2) = x := by
  cases e <;>
    simp [objectBytes, memcpy, readObject, ofBytesLE, List.range_succ] <;> omega

/-- After copying the four bytes of a 32-bit object, the buffer starts with those
bytes and reads back as the value. -/
theorem memcpy_object_32 (e : Endian) (dest : Buffer) (x : Nat) (hx : x < 2 ^ 32) :
    (List.range 4).map (memcpy dest (objectBytes e 4 x) 4) = objectBytes e 4 x ∧
    readObject e 4 (memcpy dest (objectBytes e 4 x) 4) = x := by
  cases e <;>
    simp [objectBytes, memcpy, readObject, ofBytesLE, List.range_succ] <;> omega

/-- C7: for a reachable, well-typed humidity device, a successful read on the
humidity cluster selected a row `(attributeId, width, field)` of the attribute table
with `maxReadLength = width`; the first `width` bytes of the buffer are the object
representation of `field` in the target's byte order, reading them back in that
order gives `field`, and every byte from offset `width` on is unchanged. -/
theorem C7_success_writes_field_bytes (c : Decls) (e : Endian)
    (basic : DeviceHumiditySensor → Nat → Nat → Buffer → Nat → DeviceHumiditySensor.ReadResult)
    (d : DeviceHumiditySensor) (attributeId : Nat) (buffer : Buffer) (maxReadLength : Nat)
    (hc : c.Distinct) (hr : d.reachable = true) (hw : d.WellTyped)
    (hs : (d.HandleReadEmberAfAttribute c e basic c.RelativeHumidityMeasurement_Id attributeId
      buffer maxReadLength).status = EmberAfStatus.EMBER_ZCL_STATUS_SUCCESS) :
    ∃ width field, (attributeId, width, field) ∈ d.attributeTable c ∧
      maxReadLength = width ∧
      (List.range width).map (d.HandleReadEmberAfAttribute c e basic
        c.RelativeHumidityMeasurement_Id attributeId buffer maxReadLength).buffer =
          objectBytes e width field ∧
      readObject e width (d.HandleReadEmberAfAttribute c e basic
        c.RelativeHumidityMeasurement_Id attributeId buffer maxReadLength).buffer = field ∧
      ∀ i, width ≤ i →
        (d.HandleReadEmberAfAttribute c e basic c.RelativeHumidityMeasurement_Id attributeId
          buffer maxReadLength).buffer i = buffer i := by
  obtain ⟨h0, -⟩ := hc.unpack
  obtain ⟨-, hmin, hmax, hmv, hfm, hrev⟩ := hw
  unfold DeviceHumiditySensor.HandleReadEmberAfAttribute at hs ⊢
  simp only [hr, Bool.not_true, Bool.false_eq_true, if_false, if_neg h0, ne_eq,
    not_true_eq_false] at hs ⊢
  unfold DeviceHumiditySensor.GetMeasuredValue
    DeviceHumiditySensor.GetHumiditySensorClusterFeatureMap
    DeviceHumiditySensor.GetHumiditySensorClusterRevision at hs ⊢
  split_ifs at hs ⊢ with h1 h2 h3 h4 h5
  · exact ⟨2, d.measured_value, by simp [DeviceHumiditySensor.attributeTable, h1.1], h1.2,
      (memcpy_object_16 e buffer _ hmv).1, (memcpy_object_16 e buffer _ hmv).2,
      fun i hi => memcpy_beyond _ _ _ _ hi⟩
  · exact ⟨2, d.min_value, by simp [DeviceHumiditySensor.attributeTable, h2.1], h2.2,
      (memcpy_object_16 e buffer _ hmin).1, (memcpy_object_16 e buffer _ hmin).2,
      fun i hi => memcpy_beyond _ _ _ _ hi⟩
  · exact ⟨2, d.max_value, by simp [DeviceHumiditySensor.attributeTable, h3.1], h3.2,
      (memcpy_object_16 e buffer _ hmax).1, (memcpy_object_16 e buffer _ hmax).2,
      fun i hi => memcpy_beyond _ _ _ _ hi⟩
  · exact ⟨4, d.humidity_sensor_cluster_feature_map,
      by simp [DeviceHumiditySensor.attributeTable, h4.1], h4.2,
      (memcpy_object_32 e buffer _ hfm).1, (memcpy_object_32 e buffer _ hfm).2,
      fun i hi => memcpy_beyond _ _ _ _ hi⟩
  · exact ⟨2, d.humidity_sensor_cluster_revision,
      by simp [DeviceHumiditySensor.attributeTable, h5.1], h5.2,
      (memcpy_object_16 e buffer _ hrev).1, (memcpy_object_16 e buffer _ hrev).2,
      fun i hi => memcpy_beyond _ _ _ _ hi⟩

/-- C7 at the example device holding `4660 = 0x1234`, read as measured value into a
buffer of `0xAA` bytes on a little-endian target. -/
theorem C7_success_writes_field_bytes_witness :
    (matterDecls.Distinct ∧ ({ humidityExample with measured_value := 4660 }).reachable = true ∧
      ({ humidityExample with measured_value := 4660 }).WellTyped ∧
      (({ humidityExample with measured_value := 4660 }).HandleReadEmberAfAttribute matterDecls
        Endian.little basicExample matterDecls.RelativeHumidityMeasurement_Id 0
        (fun _ => 0xAA) 2).status = EmberAfStatus.EMBER_ZCL_STATUS_SUCCESS) ∧
    ∃ width field,
      (0, width, field) ∈
        ({ humidityExample with measured_value := 4660 }).attributeTable matterDecls ∧
      2 = width ∧
      (List.range width).map (({ humidityExample with measured_value := 4660 }).HandleReadEmberAfAttribute
        matterDecls Endian.little basicExample matterDecls.RelativeHumidityMeasurement_Id 0
        (fun _ => 0xAA) 2).buffer = objectBytes Endian.little width field ∧
      readObject Endian.little width
        (({ humidityExample with measured_value := 4660 }).HandleReadEmberAfAttribute
          matterDecls Endian.little basicExample matterDecls.RelativeHumidityMeasurement_Id 0
          (fun _ => 0xAA) 2).buffer = field ∧
      ∀ i, width ≤ i →
        (({ humidityExample with measured_value := 4660 }).HandleReadEmberAfAttribute
          matterDecls Endian.little basicExample matterDecls.RelativeHumidityMeasurement_Id 0
          (fun _ => 0xAA) 2).buffer i = (fun _ => 0xAA) i :=
  ⟨⟨by decide, by decide, by decide, by decide⟩,
    C7_success_writes_field_bytes matterDecls Endian.little basicExample
      { humidityExample with measured_value := 4660 } 0 (fun _ => 0xAA) 2
      (by decide) (by decide) (by decide) (by decide)⟩

/-- C8: on every cluster id other than the bridged basic-information cluster, so on
the device's own cluster path, a read returns the device object exactly as it was
(all fields) and makes no call, hence schedules no report, whatever status it
returns and whether or not the device is reachable. -/
theorem C8_read_has_no_side_effect (c : Decls) (e : Endian)
    (basic : DeviceHumiditySensor → Nat → Nat → Buffer → Nat → DeviceHumiditySensor.ReadResult)
    (d : DeviceHumiditySensor) (clusterId attributeId : Nat) (buffer : Buffer)
    (maxReadLength : Nat) (hb : clusterId ≠ c.BridgedDeviceBasicInformation_Id) :
    (d.HandleReadEmberAfAttribute c e basic clusterId attributeId buffer maxReadLength).self = d ∧
    (d.HandleReadEmberAfAttribute c e basic clusterId attributeId buffer maxReadLength).effects =
      [] := by
  unfold DeviceHumiditySensor.HandleReadEmberAfAttribute
  simp only [if_neg hb]
  split_ifs <;> exact ⟨rfl, rfl⟩

/-- C8 at the example device: a successful read of the maximum value. -/
theorem C8_read_has_no_side_effect_witness :
    matterDecls.RelativeHumidityMeasurement_Id ≠ matterDecls.BridgedDeviceBasicInformation_Id ∧
    ((humidityExample.HandleReadEmberAfAttribute matterDecls Endian.little basicExample
        matterDecls.RelativeHumidityMeasurement_Id 2 (fun _ => 0xAA) 2).self = humidityExample ∧
      (humidityExample.HandleReadEmberAfAttribute matterDecls Endian.little basicExample
        matterDecls.RelativeHumidityMeasurement_Id 2 (fun _ => 0xAA) 2).effects = []) :=
  ⟨by decide, C8_read_has_no_side_effect matterDecls Endian.little basicExample humidityExample
    matterDecls.RelativeHumidityMeasurement_Id 2 (fun _ => 0xAA) 2 (by decide)⟩

/-- C9: `SetMeasuredValue(v)` stores the input clamped by the two comparisons of the
method and schedules exactly one report, for this device's endpoint id, the
humidity cluster and the measured-value attribute, when that clamped value differs
from the value stored before, and makes no call otherwise; with
`min_value <= max_value` the clamped value is `clamp(v, min_value, max_value)`; on a
device with range `[0, 10000]`, `SetMeasuredValue(15000)` stores `10000`, with exactly
that one report when `10000` was not already the stored value. -/
theorem C9_report_exactly_on_change (c : Decls) (d : DeviceHumiditySensor) (v : Nat)
    (hk : c.kChanged_MeasurementValue ≠ 0) :
    d.SetMeasuredValue c v =
      ({ d with
          measured_value :=
            if v < d.min_value then d.min_value
            else if v > d.max_value then d.max_value else v },
       if (if v < d.min_value then d.min_value
           else if v > d.max_value then d.max_value else v) = d.measured_value then []
       else
         [Effect.ScheduleMatterReportingCallback d.endpoint_id
           c.RelativeHumidityMeasurement_Id c.MeasuredValue_Id]) ∧
    (d.min_value ≤ d.max_value →
      (d.SetMeasuredValue c v).1 =
        { d with measured_value := clamp v d.min_value d.max_value } ∧
      (clamp v d.min_value d.max_value ≠ d.measured_value →
        (d.SetMeasuredValue c v).2 =
          [Effect.ScheduleMatterReportingCallback d.endpoint_id
            c.RelativeHumidityMeasurement_Id c.MeasuredValue_Id]) ∧
      (clamp v d.min_value d.max_value = d.measured_value →
        (d.SetMeasuredValue c v).2 = [])) ∧
    ((d.SetMeasuredValue c v).1.measured_value ≠ d.measured_value →
      (d.SetMeasuredValue c v).2 =
        [Effect.ScheduleMatterReportingCallback d.endpoint_id
          c.RelativeHumidityMeasurement_Id c.MeasuredValue_Id]) ∧
    ((d.SetMeasuredValue c v).1.measured_value = d.measured_value →
      (d.SetMeasuredValue c v).2 = []) ∧
    (d.min_value = 0 → d.max_value = 10000 →
      (d.SetMeasuredValue c 15000).1 = { d with measured_value := 10000 } ∧
      (d.SetMeasuredValue c 15000).1.measured_value = 10000 ∧
      (d.measured_value ≠ 10000 →
        (d.SetMeasuredValue c 15000).2 =
          [Effect.ScheduleMatterReportingCallback d.endpoint_id
            c.RelativeHumidityMeasurement_Id c.MeasuredValue_Id]) ∧
      (d.measured_value = 10000 → (d.SetMeasuredValue c 15000).2 = [])) := by
  have hform : ∀ w, d.SetMeasuredValue c w =
      ({ d with measured_value := d.storedValue w },
       if d.storedValue w = d.measured_value then []
       else
         [Effect.ScheduleMatterReportingCallback d.endpoint_id
           c.RelativeHumidityMeasurement_Id c.MeasuredValue_Id]) := by
    intro w
    rw [SetMeasuredValue_eq]
    by_cases h : d.measured_value = d.storedValue w
    · rw [if_pos h, if_pos h.symm]
    · rw [if_neg h, if_neg hk, if_neg (fun h2 => h h2.symm)]
  refine ⟨hform v, ?_, ?_, ?_, ?_⟩
  · intro hle
    have hcl : d.storedValue v = clamp v d.min_value d.max_value := by
      unfold DeviceHumiditySensor.storedValue clamp
      split_ifs <;> omega
    rw [hform v, hcl]
    refine ⟨rfl, fun h => ?_, fun h => ?_⟩
    · simp only [if_neg h]
    · simp only [if_pos h]
  · rw [hform v]
    intro h
    simp only [if_neg h]
  · rw [hform v]
    intro h
    simp only [if_pos h]
  · intro hmin hmax
    have hs : d.storedValue 15000 = 10000 := by
      unfold DeviceHumiditySensor.storedValue
      rw [hmin, hmax]
      decide
    rw [hform 15000, hs]
    refine ⟨rfl, rfl, fun h => ?_, fun h => ?_⟩
    · simp only [if_neg (fun h2 : (10000 : Nat) = d.measured_value => h h2.symm)]
    · simp only [if_pos h.symm]

/-- C9 at the example device `[0, 10000]` holding `0` and the input `15000`. -/
theorem C9_report_exactly_on_change_witness :
    matterDecls.kChanged_MeasurementValue ≠ 0 ∧
    (humidityExample.SetMeasuredValue matterDecls 15000 =
        ({ humidityExample with
            measured_value :=
              if 15000 < humidityExample.min_value then humidityExample.min_value
              else if 15000 > humidityExample.max_value then humidityExample.max_value
              else 15000 },
         if (if 15000 < humidityExample.min_value then humidityExample.min_value
             else if 15000 > humidityExample.max_value then humidityExample.max_value
             else 15000) = humidityExample.measured_value then []
         else
           [Effect.ScheduleMatterReportingCallback humidityExample.endpoint_id
             matterDecls.RelativeHumidityMeasurement_Id matterDecls.MeasuredValue_Id]) ∧
      (humidityExample.min_value ≤ humidityExample.max_value →
        (humidityExample.SetMeasuredValue matterDecls 15000).1 =
          { humidityExample with
            measured_value := clamp 15000 humidityExample.min_value humidityExample.max_value } ∧
        (clamp 15000 humidityExample.min_value humidityExample.max_value ≠
            humidityExample.measured_value →
          (humidityExample.SetMeasuredValue matterDecls 15000).2 =
            [Effect.ScheduleMatterReportingCallback humidityExample.endpoint_id
              matterDecls.RelativeHumidityMeasurement_Id matterDecls.MeasuredValue_Id]) ∧
        (clamp 15000 humidityExample.min_value humidityExample.max_value =
            humidityExample.measured_value →
          (humidityExample.SetMeasuredValue matterDecls 15000).2 = [])) ∧
      ((humidityExample.SetMeasuredValue matterDecls 15000).1.measured_value ≠
          humidityExample.measured_value →
        (humidityExample.SetMeasuredValue matterDecls 15000).2 =
          [Effect.ScheduleMatterReportingCallback humidityExample.endpoint_id
            matterDecls.RelativeHumidityMeasurement_Id matterDecls.MeasuredValue_Id]) ∧
      ((humidityExample.SetMeasuredValue matterDecls 15000).1.measured_value =
          humidityExample.measured_value →
        (humidityExample.SetMeasuredValue matterDecls 15000).2 = []) ∧
      (humidityExample.min_value = 0 → humidityExample.max_value = 10000 →
        (humidityExample.SetMeasuredValue matterDecls 15000).1 =
          { humidityExample with measured_value := 10000 } ∧
        (humidityExample.SetMeasuredValue matterDecls 15000).1.measured_value = 10000 ∧
        (humidityExample.measured_value ≠ 10000 →
          (humidityExample.SetMeasuredValue matterDecls 15000).2 =
            [Effect.ScheduleMatterReportingCallback humidityExample.endpoint_id
              matterDecls.RelativeHumidityMeasurement_Id matterDecls.MeasuredValue_Id]) ∧
        (humidityExample.measured_value = 10000 →
          (humidityExample.SetMeasuredValue matterDecls 15000).2 = []))) :=
  ⟨by decide, C9_report_exactly_on_change matterDecls humidityExample 15000 (by decide)⟩

/-- C10: `begin()` on an initialized `MatterTemperature` returns `false`, makes no
call (no allocation, no `AddDeviceEndpoint`) and leaves every field as it was,
whatever the allocator and the endpoint table would answer; `end()` on an
instance that is not initialized makes no call (no `RemoveDeviceEndpoint`, no
`free`, no `delete`) and leaves every field as it was. -/
theorem C10_lifecycle_misuse_is_noop (sz : Sizes) (ans : Answers)
    (active uninitialized : MatterTemperature)
    (ha : active.initialized = true) (hu : uninitialized.initialized = false) :
    active.begin sz ans = (false, active, []) ∧
    uninitialized.end_ = (uninitialized, []) := by
  unfold MatterTemperature.begin MatterTemperature.end_
  simp [ha, hu]

/-- C10 at an object after a successful `begin` and at a freshly constructed one. -/
theorem C10_lifecycle_misuse_is_noop_witness :
    (temperatureActive.initialized = true ∧ (MatterTemperature.ctor none).initialized = false) ∧
    (temperatureActive.begin sizesExample answersExample = (false, temperatureActive, []) ∧
      (MatterTemperature.ctor none).end_ = (MatterTemperature.ctor none, [])) :=
  ⟨⟨by decide, by decide⟩,
    C10_lifecycle_misuse_is_noop sizesExample answersExample temperatureActive
      (MatterTemperature.ctor none) (by decide) (by decide)⟩

/-- C11: at the failure of the version-storage allocation, `begin()` on a fresh
object returns `false`, releases the device and the descriptor it allocated once
each, registers no endpoint and leaves its four own members as they were, and a
later `begin()` succeeds; but `base_matter_device`, null before the call, is left
holding the address of the device that the call itself deleted.  The same pointer
is left behind when the descriptor allocation fails and when the endpoint table
rejects the endpoint. -/
theorem C11_failed_begin_leaves_base_matter_device :
    (MatterTemperature.begin sizesExample answersNoStorage (MatterTemperature.ctor none)).1 =
      false ∧
    allocations
        (MatterTemperature.begin sizesExample answersNoStorage (MatterTemperature.ctor none)).2.2 =
      [Resource.device 0x1000, Resource.block 0x2000] ∧
    releases
        (MatterTemperature.begin sizesExample answersNoStorage (MatterTemperature.ctor none)).2.2 =
      [Resource.device 0x1000, Resource.block 0x2000] ∧
    registrations
        (MatterTemperature.begin sizesExample answersNoStorage (MatterTemperature.ctor none)).2.2 =
      [] ∧
    (MatterTemperature.begin sizesExample answersNoStorage (MatterTemperature.ctor none)).2.1 =
      { MatterTemperature.ctor none with base_matter_device := some 0x1000 } ∧
    (MatterTemperature.ctor none).base_matter_device = none ∧
    (MatterTemperature.begin sizesExample answersNoStorage (MatterTemperature.ctor none)).2.1 ≠
      MatterTemperature.ctor none ∧
    (MatterTemperature.begin sizesExample answersExample
      (MatterTemperature.begin sizesExample answersNoStorage
        (MatterTemperature.ctor none)).2.1).1 = true ∧
    (MatterTemperature.begin sizesExample answersNoEndpoint (MatterTemperature.ctor none)) =
      (false, { MatterTemperature.ctor none with base_matter_device := some 0x1000 },
       [Effect.new_DeviceTempSensor "Temperature sensor" (-4000) 10000 0 (some 0x1000),
        Effect.SetReachable 0x1000 true,
        Effect.SetProductName 0x1000 "Temperature sensor",
        Effect.malloc 8 none,
        Effect.delete (some 0x1000)]) ∧
    (MatterTemperature.begin sizesExample answersRejected (MatterTemperature.ctor none)).2.1 =
      { MatterTemperature.ctor none with base_matter_device := some 0x1000 } ∧
    releases
        (MatterTemperature.begin sizesExample answersRejected (MatterTemperature.ctor none)).2.2 =
      [Resource.device 0x1000, Resource.block 0x2000, Resource.block 0x3000] := by
  decide

/-- C12 as stated fails: when the endpoint table rejects the endpoint, `begin()`
releases the device first, then the descriptor, then the version-storage block,
which is the order of allocation and not its reverse. -/
theorem C12_counterexample :
    ¬ ∀ (sz : Sizes) (ans : Answers) (self : MatterTemperature),
      (self.begin sz ans).1 = false →
      releases (self.begin sz ans).2.2 = (allocations (self.begin sz ans).2.2).reverse := by
  intro h
  have h1 := h sizesExample answersRejected (MatterTemperature.ctor none) (by decide)
  revert h1
  decide

/-- C12, amended: on every failure path of `begin()` the objects allocated so far
are released once each in the order of their allocation: the device instance
first, then the endpoint descriptor, then the version-storage block. -/
theorem C12_failure_releases_in_allocation_order (sz : Sizes) (ans : Answers)
    (self : MatterTemperature) (h : (self.begin sz ans).1 = false) :
    releases (self.begin sz ans).2.2 = allocations (self.begin sz ans).2.2 ∧
    (∀ sensor endpoint storage, self.initialized = false →
      ans.new_DeviceTempSensor = some sensor → ans.malloc_endpoint = some endpoint →
      ans.malloc_dataversion = some storage →
      releases (self.begin sz ans).2.2 =
        [Resource.device sensor, Resource.block endpoint, Resource.block storage]) ∧
    (∀ sensor endpoint, self.initialized = false →
      ans.new_DeviceTempSensor = some sensor → ans.malloc_endpoint = some endpoint →
      ans.malloc_dataversion = none →
      releases (self.begin sz ans).2.2 = [Resource.device sensor, Resource.block endpoint]) ∧
    (∀ sensor, self.initialized = false →
      ans.new_DeviceTempSensor = some sensor → ans.malloc_endpoint = none →
      releases (self.begin sz ans).2.2 = [Resource.device sensor]) ∧
    (ans.new_DeviceTempSensor = none → releases (self.begin sz ans).2.2 = []) := by
  obtain ⟨a, b, c, d⟩ := ans
  unfold MatterTemperature.begin at h ⊢
  cases hi : self.initialized <;> cases a <;> cases b <;> cases c <;>
    by_cases hd : d < 0 <;> simp_all [allocations, releases]

/-- C12, amended, at the run in which the endpoint table rejects the endpoint. -/
theorem C12_failure_releases_in_allocation_order_witness :
    ((MatterTemperature.ctor none).begin sizesExample answersRejected).1 = false ∧
    (releases ((MatterTemperature.ctor none).begin sizesExample answersRejected).2.2 =
        allocations ((MatterTemperature.ctor none).begin sizesExample answersRejected).2.2 ∧
      (∀ sensor endpoint storage, (MatterTemperature.ctor none).initialized = false →
        answersRejected.new_DeviceTempSensor = some sensor →
        answersRejected.malloc_endpoint = some endpoint →
        answersRejected.malloc_dataversion = some storage →
        releases ((MatterTemperature.ctor none).begin sizesExample answersRejected).2.2 =
          [Resource.device sensor, Resource.block endpoint, Resource.block storage]) ∧
      (∀ sensor endpoint, (MatterTemperature.ctor none).initialized = false →
        answersRejected.new_DeviceTempSensor = some sensor →
        answersRejected.malloc_endpoint = some endpoint →
        answersRejected.malloc_dataversion = none →
        releases ((MatterTemperature.ctor none).begin sizesExample answersRejected).2.2 =
          [Resource.device sensor, Resource.block endpoint]) ∧
      (∀ sensor, (MatterTemperature.ctor none).initialized = false →
        answersRejected.new_DeviceTempSensor = some sensor →
        answersRejected.malloc_endpoint = none →
        releases ((MatterTemperature.ctor none).begin sizesExample answersRejected).2.2 =
          [Resource.device sensor]) ∧
      (answersRejected.new_DeviceTempSensor = none →
        releases ((MatterTemperature.ctor none).begin sizesExample answersRejected).2.2 = [])) :=
  ⟨by decide,
    C12_failure_releases_in_allocation_order sizesExample answersRejected
      (MatterTemperature.ctor none) (by decide)⟩

/-- C13: `end()` on an initialized instance calls `RemoveDeviceEndpoint` first, then
frees the endpoint descriptor and the version-storage block, then deletes the
device, and only then clears `initialized`: the trace is exactly these four calls
in this order, the flag is still set after each of the first four statements, and
the object ends with `initialized = false` and its other members untouched. -/
theorem C13_end_deregisters_then_frees_then_destroys (self : MatterTemperature)
    (h : self.initialized = true) :
    self.end_ = runStatements MatterTemperature.end_body (self, []) ∧
    self.end_.2 =
      [Effect.RemoveDeviceEndpoint self.sensor_device,
       Effect.free self.device_endpoint,
       Effect.free self.endpoint_dataversion_storage,
       Effect.delete self.sensor_device] ∧
    self.end_.1 = { self with initialized := false } ∧
    self.end_.1.initialized = false ∧
    (∀ k, k ≤ 4 →
      (runStatements (MatterTemperature.end_body.take k) (self, [])).1.initialized = true ∧
      (runStatements (MatterTemperature.end_body.take k) (self, [])).2 = self.end_.2.take k) ∧
    (∀ pre post p, self.end_.2 = pre ++ Effect.RemoveDeviceEndpoint p :: post →
      ∀ q, Effect.free q ∉ pre ∧ Effect.delete q ∉ pre) := by
  have he : self.end_ = ({ self with initialized := false },
      [Effect.RemoveDeviceEndpoint self.sensor_device,
       Effect.free self.device_endpoint,
       Effect.free self.endpoint_dataversion_storage,
       Effect.delete self.sensor_device]) := by
    unfold MatterTemperature.end_
    simp [h]
  refine ⟨?_, ?_, ?_, ?_, ?_, ?_⟩
  · rw [he]; rfl
  · rw [he]
  · rw [he]
  · rw [he]
  · intro k hk
    rw [he]
    interval_cases k <;> exact ⟨h, rfl⟩
  · intro pre post p hp q
    rw [he] at hp
    have hpre : pre = [] := by
      cases pre with
      | nil => rfl
      | cons a pre1 =>
        exfalso
        simp only [List.cons_append, List.cons.injEq] at hp
        obtain ⟨-, hp⟩ := hp
        have hm : Effect.RemoveDeviceEndpoint p ∈
            [Effect.free self.device_endpoint, Effect.free self.endpoint_dataversion_storage,
              Effect.delete self.sensor_device] := by
          rw [hp]; simp
        simp at hm
    rw [hpre]
    simp

/-- C13 at the object left by a successful `begin`. -/
theorem C13_end_deregisters_then_frees_then_destroys_witness :
    temperatureActive.initialized = true ∧
    (temperatureActive.end_ =
        runStatements MatterTemperature.end_body (temperatureActive, []) ∧
      temperatureActive.end_.2 =
        [Effect.RemoveDeviceEndpoint temperatureActive.sensor_device,
         Effect.free temperatureActive.device_endpoint,
         Effect.free temperatureActive.endpoint_dataversion_storage,
         Effect.delete temperatureActive.sensor_device] ∧
      temperatureActive.end_.1 = { temperatureActive with initialized := false } ∧
      temperatureActive.end_.1.initialized = false ∧
      (∀ k, k ≤ 4 →
        (runStatements (MatterTemperature.end_body.take k)
          (temperatureActive, [])).1.initialized = true ∧
        (runStatements (MatterTemperature.end_body.take k) (temperatureActive, [])).2 =
          temperatureActive.end_.2.take k) ∧
      (∀ pre post p,
        temperatureActive.end_.2 = pre ++ Effect.RemoveDeviceEndpoint p :: post →
        ∀ q, Effect.free q ∉ pre ∧ Effect.delete q ∉ pre)) :=
  ⟨by decide, C13_end_deregisters_then_frees_then_destroys temperatureActive (by decide)⟩

/-- C14: in a run of `begin()` that reaches `AddDeviceEndpoint`, the descriptor is
given `clusterCount = 3`, the storage block is allocated with
`3 * sizeof(DataVersion)` bytes, which holds 3 elements, and the span handed to the
endpoint table is given that byte count as its element count: with a 4-byte
`DataVersion` the span claims 12 elements, neither equal to the cluster count nor
within the 3 elements allocated. -/
theorem C14_span_length_is_byte_count :
    (∀ sz : Sizes,
      ((MatterTemperature.ctor none).begin sz answersExample).2.2 =
        [Effect.new_DeviceTempSensor "Temperature sensor" (-4000) 10000 0 (some 0x1000),
         Effect.SetReachable 0x1000 true,
         Effect.SetProductName 0x1000 "Temperature sensor",
         Effect.malloc sz.sizeof_EmberAfEndpointType (some 0x2000),
         Effect.store_endpoint 0x2000 3 0,
         Effect.malloc (3 * sz.sizeof_DataVersion) (some 0x3000),
         Effect.AddDeviceEndpoint 0x1000 0x2000 0x3000 (3 * sz.sizeof_DataVersion) 1 2]) ∧
    ArraySize tempMeasurementEndpointClusters = 3 ∧
    3 * sizesExample.sizeof_DataVersion = 12 ∧
    3 * sizesExample.sizeof_DataVersion ≠ ArraySize tempMeasurementEndpointClusters ∧
    ¬ (3 * sizesExample.sizeof_DataVersion ≤
        3 * sizesExample.sizeof_DataVersion / sizesExample.sizeof_DataVersion) := by
  refine ⟨fun sz => ?_, by decide, by decide, by decide, by decide⟩
  unfold MatterTemperature.begin
  simp [MatterTemperature.ctor, answersExample, ArraySize, tempMeasurementEndpointClusters]

/-- `truncate` at an integer. -/
theorem truncate_intCast (n : Int) : truncate (n : ℚ) = n := by
  simp [truncate]

/-- Dropping all but the low 16 bits changes nothing inside the range of `int16_t`. -/
theorem wrap16_saturate32_of_int16 (n : Int) (h1 : -32768 ≤ n) (h2 : n ≤ 32767) :
    wrap16 (saturate32 n) = n := by
  unfold wrap16 saturate32
  omega

/-- The example target meets the guarantees of `FloatOps.Conforming`. -/
theorem targetExample_conforming : targetExample.Conforming := by
  refine ⟨?_, ?_, ?_, ?_, ?_⟩
  · intro x h1 h2
    exact wrap16_saturate32_of_int16 _ h1 h2
  · intro x h1 h2
    exact wrap16_saturate32_of_int16 _ h1 h2
  · intro a b _ _ _
    simp [targetExample]
  · intro a b _ _ _
    simp [targetExample]
  · intro q b _ _ _ hb
    have hb' : (b : ℚ) ≠ 0 := by exact_mod_cast hb
    simp only [targetExample, Int.cast_mul]
    field_simp

/-- `set_measured_value_raw` on an initialized instance in closed form. -/
theorem set_measured_value_raw_active (t : TemperatureDecls) (self : MatterTemperature)
    (sensor : DeviceTempSensor) (value : Int) (h : self.initialized = true) :
    self.set_measured_value_raw t sensor value =
      (self, (sensor.SetMeasuredValue t value).1,
       [Effect.LockChipStack, Effect.SetMeasuredValue self.sensor_device value] ++
         (sensor.SetMeasuredValue t value).2 ++ [Effect.UnlockChipStack]) := by
  unfold MatterTemperature.set_measured_value_raw
  simp [h]

/-- The scaled values of the inputs `400`, `-400` and `120` and their truncations. -/
theorem truncate_examples :
    truncate ((400 : ℚ) * 100) = 40000 ∧ truncate ((-400 : ℚ) * 100) = -40000 ∧
    truncate ((120 : ℚ) * 100) = 12000 := by
  refine ⟨?_, ?_, ?_⟩
  · rw [show ((400 : ℚ) * 100) = ((40000 : Int) : ℚ) by norm_num, truncate_intCast]
  · rw [show ((-400 : ℚ) * 100) = ((-40000 : Int) : ℚ) by norm_num, truncate_intCast]
  · rw [show ((120 : ℚ) * 100) = ((12000 : Int) : ℚ) by norm_num, truncate_intCast]

/-- C15: on an Active instance with range `[-4000, 10000]`,
`set_measured_value_celsius(120.0)` stores `10000` and the getter then returns `100`;
but `set_measured_value_celsius(400.0)`, whose scaled value `40000` lies outside the
range of `int16_t`, passes the wrapped value `-25536` on and stores `-4000` where the
clamp of `40000` is `10000`, and `-400.0` stores `10000` where the clamp of `-40000`
is `-4000`. -/
theorem C15_out_of_range_celsius_is_wrapped_before_clamping :
    (temperatureActive.set_measured_value_celsius_float targetExample matterTemperatureDecls
      sensorExample 120).2.1.measured_value = 10000 ∧
    temperatureActive.get_measured_value_celsius targetExample
      (temperatureActive.set_measured_value_celsius_float targetExample matterTemperatureDecls
        sensorExample 120).2.1 = 100 ∧
    (temperatureActive.set_measured_value_celsius_float targetExample matterTemperatureDecls
      sensorExample 400).2.2 =
      [Effect.LockChipStack, Effect.SetMeasuredValue (some 0x1000) (-25536),
       Effect.ScheduleMatterReportingCallback 2 0x0402 0, Effect.UnlockChipStack] ∧
    (temperatureActive.set_measured_value_celsius_float targetExample matterTemperatureDecls
      sensorExample 400).2.1.measured_value = -4000 ∧
    max (-4000 : Int) (min (truncate ((400 : ℚ) * 100)) 10000) = 10000 ∧
    (temperatureActive.set_measured_value_celsius_float targetExample matterTemperatureDecls
      sensorExample (-400)).2.1.measured_value = 10000 ∧
    max (-4000 : Int) (min (truncate ((-400 : ℚ) * 100)) 10000) = -4000 ∧
    (temperatureActive.set_measured_value_celsius_double targetExample matterTemperatureDecls
      sensorExample 400).2.1.measured_value = -4000 := by
  obtain ⟨h1, h2, h3⟩ := truncate_examples
  refine ⟨?_, ?_, ?_, ?_, ?_, ?_, ?_, ?_⟩
  · simp only [MatterTemperature.set_measured_value_celsius_float, targetExample, h3]
    decide
  · simp only [MatterTemperature.set_measured_value_celsius_float,
      MatterTemperature.get_measured_value_celsius, targetExample, h3]
    have hv : (temperatureActive.set_measured_value_raw matterTemperatureDecls sensorExample
        (wrap16 (saturate32 12000))).2.1 =
        { sensorExample with measured_value := 10000 } := by decide
    rw [hv]
    norm_num [MatterTemperature.get_measured_value_raw, DeviceTempSensor.GetMeasuredValue]
  · simp only [MatterTemperature.set_measured_value_celsius_float, targetExample, h1]
    decide
  · simp only [MatterTemperature.set_measured_value_celsius_float, targetExample, h1]
    decide
  · rw [h1]; decide
  · simp only [MatterTemperature.set_measured_value_celsius_float, targetExample, h2]
    decide
  · rw [h2]; decide
  · simp only [MatterTemperature.set_measured_value_celsius_double, targetExample, h1]
    decide

/-- The scaled values of the inputs `2593/128 = 20.2578125` and
`-1/128 = -0.0078125`, their truncations and their nearest integers. -/
theorem rounding_examples :
    truncate ((2593 / 128 : ℚ) * 100) = 2025 ∧ round ((2593 / 128 : ℚ) * 100) = 2026 ∧
    truncate ((-1 / 128 : ℚ) * 100) = 0 ∧ round ((-1 / 128 : ℚ) * 100) = -1 := by
  refine ⟨?_, ?_, ?_, ?_⟩
  · norm_num [truncate]
    decide
  · rw [round_eq, Int.floor_eq_iff]
    norm_num
  · norm_num [truncate]
    decide
  · rw [round_eq, Int.floor_eq_iff]
    norm_num

/-- C16 as stated fails: the input `-0.0078125`, whose scaled value `-0.78125` is
exact and has nearest integer `-1`, is passed on as the raw value `0`. -/
theorem C16_counterexample :
    ¬ ∀ (F : FloatOps), F.Conforming →
      ∀ (t : TemperatureDecls) (self : MatterTemperature) (sensor : DeviceTempSensor) (c : ℚ),
        -32768 ≤ c * 100 → c * 100 ≤ 32767 →
        self.set_measured_value_celsius_float F t sensor c =
          self.set_measured_value_raw t sensor (round (c * 100)) ∧
        self.set_measured_value_celsius_double F t sensor c =
          self.set_measured_value_raw t sensor (round (c * 100)) := by
  intro h
  obtain ⟨-, -, h3, h4⟩ := rounding_examples
  have h1 := (h targetExample targetExample_conforming matterTemperatureDecls temperatureActive
    sensorExample (-1 / 128) (by norm_num) (by norm_num)).1
  simp only [MatterTemperature.set_measured_value_celsius_float, targetExample, h3, h4] at h1
  revert h1
  decide

/-- C16, amended: both `set_measured_value_celsius` overloads scale the input by
the fixed factor 100 in floating point and convert by truncation toward zero: when
the truncated product lies in the range of `int16_t`, the raw value passed to
`set_measured_value_raw` is that truncated product. -/
theorem C16_celsius_truncates (F : FloatOps) (t : TemperatureDecls) (self : MatterTemperature)
    (sensor : DeviceTempSensor) (c : ℚ) (hF : F.Conforming)
    (hf : -32768 ≤ truncate (F.mul_float c 100) ∧ truncate (F.mul_float c 100) ≤ 32767)
    (hd : -32768 ≤ truncate (F.mul_long_double c 100) ∧
      truncate (F.mul_long_double c 100) ≤ 32767) :
    self.set_measured_value_celsius_float F t sensor c =
      self.set_measured_value_raw t sensor (truncate (F.mul_float c 100)) ∧
    self.set_measured_value_celsius_double F t sensor c =
      self.set_measured_value_raw t sensor (truncate (F.mul_long_double c 100)) := by
  obtain ⟨h1, h2, -⟩ := hF
  unfold MatterTemperature.set_measured_value_celsius_float
    MatterTemperature.set_measured_value_celsius_double
  rw [h1 _ hf.1 hf.2, h2 _ hd.1 hd.2]
  exact ⟨rfl, rfl⟩

/-- C16, amended, at the input `20.2578125`, whose scaled value `2025.78125` is
passed on as `2025`. -/
theorem C16_celsius_truncates_witness :
    (targetExample.Conforming ∧
      (-32768 ≤ truncate (targetExample.mul_float (2593 / 128) 100) ∧
        truncate (targetExample.mul_float (2593 / 128) 100) ≤ 32767) ∧
      (-32768 ≤ truncate (targetExample.mul_long_double (2593 / 128) 100) ∧
        truncate (targetExample.mul_long_double (2593 / 128) 100) ≤ 32767)) ∧
    (temperatureActive.set_measured_value_celsius_float targetExample matterTemperatureDecls
        sensorExample (2593 / 128) =
        temperatureActive.set_measured_value_raw matterTemperatureDecls sensorExample
          (truncate (targetExample.mul_float (2593 / 128) 100)) ∧
      temperatureActive.set_measured_value_celsius_double targetExample matterTemperatureDecls
        sensorExample (2593 / 128) =
        temperatureActive.set_measured_value_raw matterTemperatureDecls sensorExample
          (truncate (targetExample.mul_long_double (2593 / 128) 100))) :=
  have ht : truncate (targetExample.mul_float (2593 / 128) 100) = 2025 :=
    rounding_examples.1
  have ht2 : truncate (targetExample.mul_long_double (2593 / 128) 100) = 2025 :=
    rounding_examples.1
  ⟨⟨targetExample_conforming, by rw [ht]; decide, by rw [ht2]; decide⟩,
    C16_celsius_truncates targetExample matterTemperatureDecls temperatureActive sensorExample
      (2593 / 128) targetExample_conforming (by rw [ht]; decide) (by rw [ht2]; decide)⟩

/-- The trace of `set_measured_value_raw` keeps the lock discipline in every state
and for every value. -/
theorem set_measured_value_raw_lockDiscipline (t : TemperatureDecls)
    (self : MatterTemperature) (sensor : DeviceTempSensor) (value : Int) :
    lockDiscipline LockPhase.released (self.set_measured_value_raw t sensor value).2.2 =
      true := by
  unfold MatterTemperature.set_measured_value_raw DeviceTempSensor.SetMeasuredValue
  cases self.initialized
  · simp [lockDiscipline]
  · by_cases hc : sensor.measured_value = max sensor.min_value (min value sensor.max_value) <;>
      simp [lockDiscipline, Effect.isMutation, hc]

/-- C17 as stated fails: a successful `begin()` calls `SetReachable` and
`SetProductName` on the device without holding the stack lock. -/
theorem C17_counterexample :
    ¬ ∀ (sz : Sizes) (ans : Answers) (self : MatterTemperature),
      lockDiscipline LockPhase.released (self.begin sz ans).2.2 = true := by
  intro h
  have h1 := h sizesExample answersExample (MatterTemperature.ctor none)
  revert h1
  decide

/-- C17, amended: in the trace of `end`, of `set_measured_value_raw`, of both
`set_measured_value_celsius` overloads and of the three `operator=` overloads, in
every state and for every input, a mutation of the device occurs only as the call
right after `LockChipStack`, `UnlockChipStack` follows right after it, the lock is
never acquired while held and is released at the end; `begin` never acquires or
releases the lock. -/
theorem C17_setters_hold_the_lock (F : FloatOps) (t : TemperatureDecls) (sz : Sizes)
    (ans : Answers) (self : MatterTemperature) (sensor : DeviceTempSensor) (raw : Int)
    (c : ℚ) :
    lockDiscipline LockPhase.released self.end_.2 = true ∧
    lockDiscipline LockPhase.released (self.set_measured_value_raw t sensor raw).2.2 = true ∧
    lockDiscipline LockPhase.released
      (self.set_measured_value_celsius_float F t sensor c).2.2 = true ∧
    lockDiscipline LockPhase.released
      (self.set_measured_value_celsius_double F t sensor c).2.2 = true ∧
    lockDiscipline LockPhase.released (self.assign_int16 t sensor raw).2.2 = true ∧
    lockDiscipline LockPhase.released (self.assign_float F t sensor c).2.2 = true ∧
    lockDiscipline LockPhase.released (self.assign_double F t sensor c).2.2 = true ∧
    Effect.LockChipStack ∉ (self.begin sz ans).2.2 ∧
    Effect.UnlockChipStack ∉ (self.begin sz ans).2.2 := by
  refine ⟨?_, set_measured_value_raw_lockDiscipline t self sensor raw,
    set_measured_value_raw_lockDiscipline t self sensor _,
    set_measured_value_raw_lockDiscipline t self sensor _,
    set_measured_value_raw_lockDiscipline t self sensor raw,
    set_measured_value_raw_lockDiscipline t self sensor _,
    set_measured_value_raw_lockDiscipline t self sensor _, ?_, ?_⟩
  · unfold MatterTemperature.end_
    cases self.initialized <;> simp [lockDiscipline, Effect.isMutation]
  · obtain ⟨a, b, c1, d⟩ := ans
    unfold MatterTemperature.begin
    cases self.initialized <;> cases a <;> cases b <;> cases c1 <;>
      by_cases hd : d < 0 <;> simp [hd]
  · obtain ⟨a, b, c1, d⟩ := ans
    unfold MatterTemperature.begin
    cases self.initialized <;> cases a <;> cases b <;> cases c1 <;>
      by_cases hd : d < 0 <;> simp [hd]

/-- C18: on an instance that is not initialized, `set_measured_value_raw`, both
`set_measured_value_celsius` overloads and the three `operator=` overloads return,
for every input, the instance and the device object exactly as they were and make
no call: no `LockChipStack`, no call on `sensor_device`, no report. -/
theorem C18_setters_on_uninitialized_are_noops (F : FloatOps) (t : TemperatureDecls)
    (self : MatterTemperature) (sensor : DeviceTempSensor) (raw : Int) (c : ℚ)
    (h : self.initialized = false) :
    self.set_measured_value_raw t sensor raw = (self, sensor, []) ∧
    self.set_measured_value_celsius_float F t sensor c = (self, sensor, []) ∧
    self.set_measured_value_celsius_double F t sensor c = (self, sensor, []) ∧
    self.assign_int16 t sensor raw = (self, sensor, []) ∧
    self.assign_float F t sensor c = (self, sensor, []) ∧
    self.assign_double F t sensor c = (self, sensor, []) := by
  have hr : ∀ v, self.set_measured_value_raw t sensor v = (self, sensor, []) := by
    intro v
    unfold MatterTemperature.set_measured_value_raw
    simp [h]
  exact ⟨hr _, hr _, hr _, hr _, hr _, hr _⟩

/-- C18 at an instance after `begin` and `end`, for the raw value `2500` and the
Celsius value `400`. -/
theorem C18_setters_on_uninitialized_are_noops_witness :
    temperatureActive.end_.1.initialized = false ∧
    (temperatureActive.end_.1.set_measured_value_raw matterTemperatureDecls sensorExample 2500 =
        (temperatureActive.end_.1, sensorExample, []) ∧
      temperatureActive.end_.1.set_measured_value_celsius_float targetExample
        matterTemperatureDecls sensorExample 400 = (temperatureActive.end_.1, sensorExample, []) ∧
      temperatureActive.end_.1.set_measured_value_celsius_double targetExample
        matterTemperatureDecls sensorExample 400 = (temperatureActive.end_.1, sensorExample, []) ∧
      temperatureActive.end_.1.assign_int16 matterTemperatureDecls sensorExample 2500 =
        (temperatureActive.end_.1, sensorExample, []) ∧
      temperatureActive.end_.1.assign_float targetExample matterTemperatureDecls sensorExample
        400 = (temperatureActive.end_.1, sensorExample, []) ∧
      temperatureActive.end_.1.assign_double targetExample matterTemperatureDecls sensorExample
        400 = (temperatureActive.end_.1, sensorExample, [])) :=
  ⟨by decide,
    C18_setters_on_uninitialized_are_noops targetExample matterTemperatureDecls
      temperatureActive.end_.1 sensorExample 2500 400 (by decide)⟩

end Matter
